import Mathlib

/-!
Cart and checkout handlers of `server.js`.

A shallow embedding of the five cart/checkout routes of `src/server.js`
(`GET /cart`, `POST /cart`, `PUT /cart`, `DELETE /cart`, `POST /checkout`)
together with the document shapes of `src/Cart.js` and `src/Order.js`.

Modelling conventions.

* Requests are modelled after `isAuthenticated` has run: the handler receives
  the user id `req.user._id`.
* Object ids are represented by the string that `toString()` yields, which is
  what the handlers compare; request item ids are taken in that same form.
* JSON numbers are exact rationals; `undefined` and `NaN` are both the value
  `none` of `JNum`, since the handlers only ever use them arithmetically.
  Rounding of IEEE doubles is outside the model.
* A request body carries `itemId` as an absent field or a string and `quantity`
  as an absent field or a number.
* Collections are lists in insertion order; `findOne` and `deleteOne` act on the
  first matching document, `save` on a loaded document rewrites it in place and
  on a fresh document inserts it.
* Of Mongoose the model keeps what the handlers rely on: an element pushed
  without a quantity takes the schema default 1, and `save()` rejects a document
  in which a quantity or the total is not a number.
* Every store call of a handler may throw; `Faults` says which ones do.
-/

namespace BSOD

abbrev UserId := String
abbrev ItemId := String

/-- Modelled from the spec: `item.js` is not among the sources; an Item has an
identity and a numeric price, and the handlers read nothing else of it. -/
structure ItemDoc where
  _id : ItemId
  price : ℚ
  deriving DecidableEq, Repr

/-- One element of `items` in `CartSchema` / `OrderSchema`. -/
structure CartItem where
  itemId : ItemId
  quantity : ℚ
  deriving DecidableEq, Repr

/-- A persisted document of `CartSchema` (Cart.js, lines 4-13). -/
structure Cart where
  userId : UserId
  items : List CartItem
  total : ℚ
  deriving DecidableEq, Repr

/-- A persisted document of `OrderSchema` (Order.js); `shippingAddress` and
`paymentMethod` are never set by the handlers and are left out. -/
structure Order where
  userId : UserId
  items : List CartItem
  total : ℚ
  status : String
  deriving DecidableEq, Repr

/-- The two collections the cart and checkout routes write to. -/
structure Store where
  carts : List Cart
  orders : List Order
  deriving DecidableEq, Repr

/-- A JavaScript number as the handlers use it: a rational, or `none` for
`NaN` / `undefined`. -/
abbrev JNum := Option ℚ

/-- JavaScript `a + b` on numbers. -/
def JNum.add : JNum → JNum → JNum
  | some a, some b => some (a + b)
  | _, _ => none

/-- JavaScript `a * b` on numbers. -/
def JNum.mul : JNum → JNum → JNum
  | some a, some b => some (a * b)
  | _, _ => none

/-- JavaScript `quantity <= 0`: false when the operand is `undefined`. -/
def JNum.leZero : JNum → Bool
  | some a => decide (a ≤ 0)
  | none => false

/-- The destructured `req.body` of `POST /cart` and `PUT /cart`. -/
structure CartBody where
  itemId : Option String
  quantity : Option ℚ
  deriving DecidableEq, Repr

/-- JavaScript `!itemId` for an absent field or a string. -/
def falsy : Option String → Bool
  | none => true
  | some s => s == ""

/-- Which store calls of the current request throw. -/
structure Faults where
  cartFind : Bool
  itemFind : Bool
  cartSave : Bool
  orderCreate : Bool
  cartDelete : Bool
  deriving DecidableEq, Repr

/-- The store answers every call of the request. -/
def noFaults : Faults := ⟨false, false, false, false, false⟩

/-- An element of `cart.items` of a loaded document while the handler works on
it; its quantity may have been set to a non-number. -/
structure MemItem where
  itemId : ItemId
  quantity : JNum
  deriving DecidableEq, Repr

/-- A cart as rendered by `.populate('items.itemId')`. -/
structure PopulatedCart where
  userId : UserId
  items : List (Option ItemDoc × ℚ)
  total : ℚ
  deriving DecidableEq, Repr

inductive Body
  | message (m : String)
  | cart (c : Cart)
  | populated (c : PopulatedCart)
  | emptyCart
  | orderPlaced (o : Order)
  deriving DecidableEq, Repr

structure Response where
  status : Nat
  body : Body
  deriving DecidableEq, Repr

/-- The query `Cart.findOne({ userId })`. -/
def findOne (carts : List Cart) (u : UserId) : Option Cart :=
  carts.find? (fun c => c.userId == u)

/-- The call `Cart.deleteOne({ userId })`. -/
def deleteOne (carts : List Cart) (u : UserId) : List Cart :=
  carts.eraseP (fun c => c.userId == u)

/-- The call `cart.save()` on the document that `findOne` returned: the first document
of the user is rewritten in place. -/
def replaceFirst (u : UserId) (c' : Cart) : List Cart → List Cart
  | [] => []
  | c :: cs => if c.userId == u then c' :: cs else c :: replaceFirst u c' cs

/-- The call `cart.save()`: insert a document made by `new Cart`, rewrite a loaded one. -/
def saveCart (carts : List Cart) (isNew : Bool) (c : Cart) : List Cart :=
  if isNew then carts ++ [c] else replaceFirst c.userId c carts

/-- The `items` array of a loaded cart. -/
def load (items : List CartItem) : List MemItem :=
  items.map (fun e => ⟨e.itemId, some e.quantity⟩)

/-- The statement `existingItem.quantity += quantity` on the element `find` returned. -/
def bumpFirst (itemId : ItemId) (quantity : JNum) : List MemItem → List MemItem
  | [] => []
  | i :: is =>
    if i.itemId == itemId then { i with quantity := JNum.add i.quantity quantity } :: is
    else i :: bumpFirst itemId quantity is

/-- Lines 101-103 of server.js. A pushed element without a quantity gets the
schema default 1 (Cart.js, line 9). -/
def addToItems (items : List MemItem) (itemId : ItemId) (quantity : JNum) : List MemItem :=
  match items.find? (fun i => i.itemId == itemId) with
  | some _ => bumpFirst itemId quantity items
  | none => items ++ [⟨itemId, some (quantity.getD 1)⟩]

/-- The statement `cart.items[itemIndex].quantity = quantity`. -/
def setQuantityAt (idx : Nat) (quantity : JNum) (items : List MemItem) : List MemItem :=
  items.modify (fun i => { i with quantity := quantity }) idx

/-- Lines 129-130 of server.js. -/
def updateItems (items : List MemItem) (itemIndex : Nat) (quantity : JNum) : List MemItem :=
  if JNum.leZero quantity then items.eraseIdx itemIndex
  else setQuantityAt itemIndex quantity items

/-- The query `Item.find({ _id: { $in: ids } })`. -/
def findItems (catalogue : List ItemDoc) (ids : List ItemId) : List ItemDoc :=
  catalogue.filter (fun d => ids.contains d._id)

/-- The expression `item?.price || 0`. -/
def priceOrZero : Option ItemDoc → ℚ
  | some d => if d.price = 0 then 0 else d.price
  | none => 0

/-- The `reduce` of lines 106-109 and 133-136 of server.js. -/
def computeTotal (itemDocs : List ItemDoc) (items : List MemItem) : JNum :=
  items.foldl
    (fun sum i =>
      JNum.add sum
        (JNum.mul (some (priceOrZero (itemDocs.find? (fun d => d._id == i.itemId)))) i.quantity))
    (some 0)

/-- Casting of the `items` array to `Number` quantities when the document is
validated; a non-number is a cast error. -/
def castItems : List MemItem → Option (List CartItem)
  | [] => some []
  | i :: is =>
    match i.quantity, castItems is with
    | some q, some rest => some (⟨i.itemId, q⟩ :: rest)
    | _, _ => none

/-- The document `save()` would write, or `none` when validation rejects it
because a quantity or the total is not a number. -/
def validate (u : UserId) (items : List MemItem) (total : JNum) : Option Cart :=
  match castItems items, total with
  | some its, some t => some ⟨u, its, t⟩
  | _, _ => none

/-- The tail of `POST /cart` and `PUT /cart`: look the prices up, recompute the
total, save, answer with the cart; any throw is answered by `failure`. -/
def recomputeAndSave (f : Faults) (catalogue : List ItemDoc) (s : Store) (u : UserId)
    (isNew : Bool) (items : List MemItem) (failure : String) : Response × Store :=
  if f.itemFind then (⟨500, .message failure⟩, s)
  else
    let itemDocs := findItems catalogue (items.map (fun i => i.itemId))
    let total := computeTotal itemDocs items
    match validate u items total with
    | none => (⟨500, .message failure⟩, s)
    | some c =>
      if f.cartSave then (⟨500, .message failure⟩, s)
      else (⟨200, .cart c⟩, { s with carts := saveCart s.carts isNew c })

/-- The effect of `.populate('items.itemId')` on the entries: each item id is
replaced by its catalogue record, or by null when there is none. -/
def populate (catalogue : List ItemDoc) (items : List CartItem) : List (Option ItemDoc × ℚ) :=
  items.map (fun e => (catalogue.find? (fun d => d._id == e.itemId), e.quantity))

/-- The route `GET /cart` (server.js, lines 84-91). -/
def getCart (f : Faults) (catalogue : List ItemDoc) (s : Store) (u : UserId) :
    Response × Store :=
  if f.cartFind then (⟨500, .message "Failed to get cart"⟩, s)
  else
    match findOne s.carts u with
    | none => (⟨200, .emptyCart⟩, s)
    | some c =>
      if f.itemFind then (⟨500, .message "Failed to get cart"⟩, s)
      else
        (⟨200, .populated ⟨c.userId, populate catalogue c.items, c.total⟩⟩, s)

/-- The route `POST /cart` (server.js, lines 93-116). -/
def postCart (f : Faults) (catalogue : List ItemDoc) (s : Store) (u : UserId)
    (body : CartBody) : Response × Store :=
  if falsy body.itemId || JNum.leZero body.quantity then
    (⟨400, .message "Invalid item or quantity"⟩, s)
  else if f.cartFind then (⟨500, .message "Failed to update cart"⟩, s)
  else
    let itemId := body.itemId.getD ""
    match findOne s.carts u with
    | some cart =>
      recomputeAndSave f catalogue s u false (addToItems (load cart.items) itemId body.quantity)
        "Failed to update cart"
    | none =>
      recomputeAndSave f catalogue s u true (addToItems [] itemId body.quantity)
        "Failed to update cart"

/-- The route `PUT /cart` (server.js, lines 118-143). -/
def putCart (f : Faults) (catalogue : List ItemDoc) (s : Store) (u : UserId)
    (body : CartBody) : Response × Store :=
  if falsy body.itemId then (⟨400, .message "Missing itemId"⟩, s)
  else if f.cartFind then (⟨500, .message "Failed to modify cart"⟩, s)
  else
    let itemId := body.itemId.getD ""
    match findOne s.carts u with
    | none => (⟨404, .message "Cart not found"⟩, s)
    | some cart =>
      match (load cart.items).findIdx? (fun i => i.itemId == itemId) with
      | none => (⟨404, .message "Item not in cart"⟩, s)
      | some itemIndex =>
        recomputeAndSave f catalogue s u false
          (updateItems (load cart.items) itemIndex body.quantity) "Failed to modify cart"

/-- The route `DELETE /cart` (server.js, lines 145-152). -/
def deleteCart (f : Faults) (s : Store) (u : UserId) : Response × Store :=
  if f.cartDelete then (⟨500, .message "Failed to clear cart"⟩, s)
  else (⟨200, .message "Cart cleared"⟩, { s with carts := deleteOne s.carts u })

/-- The route `POST /checkout` (server.js, lines 154-171). -/
def checkout (f : Faults) (s : Store) (u : UserId) : Response × Store :=
  if f.cartFind then (⟨500, .message "Checkout failed"⟩, s)
  else
    match findOne s.carts u with
    | none => (⟨400, .message "Cart is empty"⟩, s)
    | some cart =>
      if cart.items.length = 0 then (⟨400, .message "Cart is empty"⟩, s)
      else if f.orderCreate then (⟨500, .message "Checkout failed"⟩, s)
      else
        let order : Order := ⟨u, cart.items, cart.total, "Processing"⟩
        let s1 : Store := { s with orders := s.orders ++ [order] }
        if f.cartDelete then (⟨500, .message "Checkout failed"⟩, s1)
        else (⟨201, .orderPlaced order⟩, { s1 with carts := deleteOne s1.carts u })

/-- The requests of the cart and checkout routes. -/
inductive Request
  | get
  | addItem (body : CartBody)
  | updateItem (body : CartBody)
  | clearCart
  | checkout
  deriving DecidableEq, Repr

/-- Routing of one authenticated request. -/
def handle (f : Faults) (catalogue : List ItemDoc) (s : Store) (u : UserId) :
    Request → Response × Store
  | .get => getCart f catalogue s u
  | .addItem body => postCart f catalogue s u body
  | .updateItem body => putCart f catalogue s u body
  | .clearCart => deleteCart f s u
  | .checkout => checkout f s u

/-- One request as the server meets it: the faults of its store calls, the item
catalogue at that moment, the authenticated user and the request. -/
structure Call where
  faults : Faults
  catalogue : List ItemDoc
  user : UserId
  request : Request

/-- The store after serving the calls one after the other. -/
def run (s : Store) : List Call → Store
  | [] => s
  | c :: cs => run (handle c.faults c.catalogue s c.user c.request).2 cs

/-- The catalogue price of an item id, 0 when there is no record. -/
def price (catalogue : List ItemDoc) (itemId : ItemId) : ℚ :=
  match catalogue.find? (fun d => d._id == itemId) with
  | some d => d.price
  | none => 0

/-- The sum of `price * quantity` over the entries. -/
def lineSum (catalogue : List ItemDoc) (items : List CartItem) : ℚ :=
  (items.map (fun e => price catalogue e.itemId * e.quantity)).sum

/-- A sample user id, in the form `req.user._id.toString()` gives. -/
def alice : UserId := "65f1a2b3c4d5e6f708192a3b"

/-- A sample item id. -/
def itemA : ItemId := "507f1f77bcf86cd799439011"

/-- A second sample item id. -/
def itemB : ItemId := "507f191e810c19729de860ea"

/-- The item ids of a list of entries, in order. -/
def itemIds (items : List CartItem) : List ItemId :=
  items.map (fun e => e.itemId)

/-- Every user owns at most one cart document. -/
def OneCartPerUser (s : Store) : Prop :=
  (s.carts.map (fun c => c.userId)).Nodup

/-! ## Auxiliary facts about the embedding -/

theorem itemB_ne_itemA : itemB ≠ itemA := by decide

theorem castItems_load (cs : List CartItem) : castItems (load cs) = some cs := by
  induction cs with
  | nil => rfl
  | cons e es ih => simp [load, castItems] at ih ⊢; simp [ih]

theorem castItems_eq_some {ms : List MemItem} {cs : List CartItem}
    (h : castItems ms = some cs) : ms = load cs := by
  induction ms generalizing cs with
  | nil => simp [castItems] at h; subst h; rfl
  | cons m ms ih =>
    obtain ⟨mid, mq⟩ := m
    cases mq with
    | none => simp [castItems] at h
    | some q =>
      cases hrest : castItems ms with
      | none => simp [castItems, hrest] at h
      | some rest =>
        simp [castItems, hrest] at h
        subst h
        simp [load, ih hrest]

theorem find?_findItems (catalogue : List ItemDoc) (ids : List ItemId) (itemId : ItemId)
    (h : itemId ∈ ids) :
    (findItems catalogue ids).find? (fun d => d._id == itemId)
      = catalogue.find? (fun d => d._id == itemId) := by
  unfold findItems
  rw [List.find?_filter]
  congr 1
  funext d
  by_cases hd : d._id = itemId
  · simp [hd, h]
  · simp [hd]

theorem priceOrZero_find? (catalogue : List ItemDoc) (itemId : ItemId) :
    priceOrZero (catalogue.find? (fun d => d._id == itemId)) = price catalogue itemId := by
  unfold price
  cases catalogue.find? (fun d => d._id == itemId) with
  | none => rfl
  | some d =>
    by_cases h : d.price = 0
    · simp [priceOrZero, h]
    · simp [priceOrZero, h]

theorem foldl_total (catalogue itemDocs : List ItemDoc) (cs : List CartItem)
    (h : ∀ e ∈ cs, itemDocs.find? (fun d => d._id == e.itemId)
      = catalogue.find? (fun d => d._id == e.itemId)) (a : ℚ) :
    (load cs).foldl
      (fun sum i =>
        JNum.add sum
          (JNum.mul (some (priceOrZero (itemDocs.find? (fun d => d._id == i.itemId)))) i.quantity))
      (some a) = some (a + lineSum catalogue cs) := by
  induction cs generalizing a with
  | nil => simp [load, lineSum]
  | cons e es ih =>
    have he := h e (List.mem_cons_self _ _)
    have hes : ∀ x ∈ es, itemDocs.find? (fun d => d._id == x.itemId)
        = catalogue.find? (fun d => d._id == x.itemId) :=
      fun x hx => h x (List.mem_cons_of_mem _ hx)
    have hstep : JNum.add (some a)
        (JNum.mul (some (priceOrZero (itemDocs.find? (fun d => d._id == e.itemId))))
          (some e.quantity)) = some (a + price catalogue e.itemId * e.quantity) := by
      rw [he, priceOrZero_find?]; rfl
    have hrec := ih hes (a + price catalogue e.itemId * e.quantity)
    simp only [load, List.map_cons, List.foldl_cons] at hrec ⊢
    rw [hstep, hrec]
    simp [lineSum, add_assoc]

theorem computeTotal_load (catalogue : List ItemDoc) (cs : List CartItem) :
    computeTotal (findItems catalogue ((load cs).map (fun i => i.itemId))) (load cs)
      = some (lineSum catalogue cs) := by
  unfold computeTotal
  rw [foldl_total catalogue]
  · simp
  · intro e he
    apply find?_findItems
    simp only [load, List.map_map, List.mem_map]
    exact ⟨e, he, rfl⟩

/-- The two outcomes of the shared tail of `POST /cart` and `PUT /cart`. -/
theorem recomputeAndSave_cases (f : Faults) (catalogue : List ItemDoc) (s : Store) (u : UserId)
    (isNew : Bool) (items : List MemItem) (failure : String) :
    (∃ cs, items = load cs ∧ f.itemFind = false ∧ f.cartSave = false ∧
      recomputeAndSave f catalogue s u isNew items failure
        = (⟨200, .cart ⟨u, cs, lineSum catalogue cs⟩⟩,
           { s with carts := saveCart s.carts isNew ⟨u, cs, lineSum catalogue cs⟩ }))
    ∨ (recomputeAndSave f catalogue s u isNew items failure = (⟨500, .message failure⟩, s) ∧
        (f.itemFind = true ∨ f.cartSave = true ∨ ∀ cs, items ≠ load cs)) := by
  unfold recomputeAndSave
  by_cases h1 : f.itemFind = true
  · right; simp [h1]
  · simp only [h1, Bool.false_eq_true, if_false]
    cases hc : castItems items with
    | none =>
      right
      refine ⟨by simp [validate, hc], Or.inr (Or.inr ?_)⟩
      intro cs hcs
      rw [hcs, castItems_load] at hc
      exact Option.noConfusion hc
    | some cs =>
      have hl := castItems_eq_some hc
      subst hl
      rw [computeTotal_load]
      simp only [validate, castItems_load]
      by_cases h2 : f.cartSave = true
      · right; simp [h2]
      · left
        exact ⟨cs, rfl, by simp [h1], by simp [h2], by simp [h2]⟩

/-! ### The item list of a cart -/

/-- An item id that occurs in a list of entries splits the list at its first occurrence. -/
theorem split_at_first (cs : List CartItem) (i : ItemId) (h : i ∈ cs.map (fun e => e.itemId)) :
    ∃ pre p post, cs = pre ++ ⟨i, p⟩ :: post ∧ i ∉ pre.map (fun e => e.itemId) := by
  induction cs with
  | nil => simp at h
  | cons e es ih =>
    by_cases he : e.itemId = i
    · exact ⟨[], e.quantity, es, by cases e; simp_all, by simp⟩
    · have hmem : i ∈ es.map (fun e => e.itemId) := by
        simp only [List.map_cons, List.mem_cons] at h
        rcases h with h | h
        · exact absurd h.symm he
        · exact h
      obtain ⟨pre, p, post, hsplit, hpre⟩ := ih hmem
      refine ⟨e :: pre, p, post, by simp [hsplit], ?_⟩
      simp only [List.map_cons, List.mem_cons, not_or]
      exact ⟨fun h => he h.symm, hpre⟩

theorem not_load_of_none (xs ys : List MemItem) (i : ItemId) :
    ∀ cs, xs ++ ⟨i, none⟩ :: ys ≠ load cs := by
  intro cs hcs
  have hc := castItems_load cs
  rw [← hcs] at hc
  clear hcs
  induction xs generalizing cs with
  | nil => simp [castItems] at hc
  | cons x xs ih =>
    obtain ⟨xi, xq⟩ := x
    cases xq with
    | none => simp [castItems] at hc
    | some v =>
      cases hrest : castItems (xs ++ ⟨i, none⟩ :: ys) with
      | none => simp [castItems, hrest] at hc
      | some rest => exact ih rest hrest

theorem findIdx?_load_none (cs : List CartItem) (i : ItemId) (h : i ∉ cs.map (fun e => e.itemId)) :
    (load cs).findIdx? (fun m => m.itemId == i) = none := by
  rw [List.findIdx?_eq_none_iff]
  intro m hm
  simp only [load, List.mem_map] at hm
  obtain ⟨e, he, rfl⟩ := hm
  simp only [beq_eq_false_iff_ne, ne_eq]
  intro hi
  exact h (List.mem_map.mpr ⟨e, he, hi⟩)

theorem findIdx?_load_some (pre post : List CartItem) (i : ItemId) (p : ℚ)
    (h : i ∉ pre.map (fun e => e.itemId)) :
    (load (pre ++ ⟨i, p⟩ :: post)).findIdx? (fun m => m.itemId == i) = some pre.length := by
  induction pre with
  | nil => simp [load, List.findIdx?_cons]
  | cons e es ih =>
    simp only [List.map_cons, List.mem_cons, not_or] at h
    have hne : ¬ e.itemId = i := fun h' => h.1 h'.symm
    have hrec := ih h.2
    simp only [load, List.map_cons, List.cons_append, List.map_append] at hrec ⊢
    rw [List.findIdx?_cons]
    simp [hne, hrec]

theorem eraseIdx_load (pre post : List CartItem) (e : CartItem) :
    (load (pre ++ e :: post)).eraseIdx pre.length = load (pre ++ post) := by
  induction pre with
  | nil => simp [load]
  | cons x xs ih => simpa [load] using ih

theorem setQuantityAt_load (pre post : List CartItem) (i : ItemId) (p : ℚ) (q : JNum) :
    setQuantityAt pre.length q (load (pre ++ ⟨i, p⟩ :: post))
      = load pre ++ ⟨i, q⟩ :: load post := by
  unfold setQuantityAt
  induction pre with
  | nil => simp [load]
  | cons x xs ih => simpa [load] using ih

/-- The remove branch of `PUT /cart`. -/
theorem updateItems_remove (pre post : List CartItem) (i : ItemId) (p q : ℚ) (hq : q ≤ 0) :
    updateItems (load (pre ++ ⟨i, p⟩ :: post)) pre.length (some q) = load (pre ++ post) := by
  simp [updateItems, JNum.leZero, hq, eraseIdx_load]

/-- The set branch of `PUT /cart` for a numeric quantity. -/
theorem updateItems_set (pre post : List CartItem) (i : ItemId) (p q : ℚ) (hq : 0 < q) :
    updateItems (load (pre ++ ⟨i, p⟩ :: post)) pre.length (some q)
      = load (pre ++ ⟨i, q⟩ :: post) := by
  have hset := setQuantityAt_load pre post i p (some q)
  simp only [updateItems, JNum.leZero, not_le.mpr hq, decide_False, Bool.false_eq_true, if_false]
  rw [hset]
  simp [load]

/-- The set branch of `PUT /cart` for an absent quantity leaves a non-number behind. -/
theorem updateItems_undefined (pre post : List CartItem) (i : ItemId) (p : ℚ) :
    updateItems (load (pre ++ ⟨i, p⟩ :: post)) pre.length none
      = load pre ++ ⟨i, none⟩ :: load post := by
  simp [updateItems, JNum.leZero, setQuantityAt_load]

/-! ### The cart collection -/

theorem findOne_replaceFirst (carts : List Cart) (u : UserId) (c c' : Cart)
    (h : findOne carts u = some c) (hu : c'.userId = u) :
    findOne (replaceFirst u c' carts) u = some c' := by
  induction carts with
  | nil => simp [findOne] at h
  | cons x xs ih =>
    by_cases hx : x.userId = u
    · simp [replaceFirst, findOne, hx, hu]
    · have hx' : (x.userId == u) = false := by simp [hx]
      simp only [findOne, List.find?_cons, hx'] at h ih
      simp [replaceFirst, findOne, hx, ih h]

theorem recomputeAndSave_status (f : Faults) (catalogue : List ItemDoc) (s : Store) (u : UserId)
    (isNew : Bool) (items : List MemItem) (failure : String) :
    (recomputeAndSave f catalogue s u isNew items failure).1.status = 200 ∨
    recomputeAndSave f catalogue s u isNew items failure = (⟨500, .message failure⟩, s) := by
  rcases recomputeAndSave_cases f catalogue s u isNew items failure with
    ⟨cs, _, _, _, heq⟩ | ⟨heq, _⟩
  · left; rw [heq]
  · right; exact heq

theorem recomputeAndSave_noFaults (catalogue : List ItemDoc) (s : Store) (u : UserId)
    (isNew : Bool) (cs : List CartItem) (failure : String) :
    recomputeAndSave noFaults catalogue s u isNew (load cs) failure
      = (⟨200, .cart ⟨u, cs, lineSum catalogue cs⟩⟩,
         { s with carts := saveCart s.carts isNew ⟨u, cs, lineSum catalogue cs⟩ }) := by
  rcases recomputeAndSave_cases noFaults catalogue s u isNew (load cs) failure with
    ⟨cs', hcs, _, _, heq⟩ | ⟨_, h | h | h⟩
  · have : cs = cs' := by
      have h1 := castItems_load cs
      rw [hcs, castItems_load] at h1
      exact (Option.some.inj h1).symm
    subst this
    exact heq
  · simp [noFaults] at h
  · simp [noFaults] at h
  · exact absurd rfl (h cs)

theorem putCart_found {f : Faults} {catalogue : List ItemDoc} {s : Store} {u : UserId}
    {i : String} {q : JNum} {cart : Cart} {idx : Nat} (hi : i ≠ "")
    (hf : f.cartFind = false) (hc : findOne s.carts u = some cart)
    (hidx : (load cart.items).findIdx? (fun m => m.itemId == i) = some idx) :
    putCart f catalogue s u ⟨some i, q⟩
      = recomputeAndSave f catalogue s u false (updateItems (load cart.items) idx q)
          "Failed to modify cart" := by
  simp [putCart, falsy, hi, hf, hc, hidx]

theorem putCart_noFaults_set (catalogue : List ItemDoc) (s : Store) (u : UserId)
    (i : String) (p q : ℚ) (cart : Cart) (pre post : List CartItem) (hi : i ≠ "") (hq : 0 < q)
    (hc : findOne s.carts u = some cart) (hsplit : cart.items = pre ++ ⟨i, p⟩ :: post)
    (hpre : i ∉ pre.map (fun e => e.itemId)) :
    putCart noFaults catalogue s u ⟨some i, some q⟩
      = (⟨200, .cart ⟨u, pre ++ ⟨i, q⟩ :: post, lineSum catalogue (pre ++ ⟨i, q⟩ :: post)⟩⟩,
         { s with carts := (replaceFirst u
            ⟨u, pre ++ ⟨i, q⟩ :: post, lineSum catalogue (pre ++ ⟨i, q⟩ :: post)⟩ s.carts) }) := by
  have hidx := findIdx?_load_some pre post i p hpre
  rw [← hsplit] at hidx
  rw [putCart_found hi rfl hc hidx, hsplit, updateItems_set pre post i p q hq,
    recomputeAndSave_noFaults]
  simp [saveCart]

theorem putCart_noFaults_remove (catalogue : List ItemDoc) (s : Store) (u : UserId)
    (i : String) (p q : ℚ) (cart : Cart) (pre post : List CartItem) (hi : i ≠ "") (hq : q ≤ 0)
    (hc : findOne s.carts u = some cart) (hsplit : cart.items = pre ++ ⟨i, p⟩ :: post)
    (hpre : i ∉ pre.map (fun e => e.itemId)) :
    putCart noFaults catalogue s u ⟨some i, some q⟩
      = (⟨200, .cart ⟨u, pre ++ post, lineSum catalogue (pre ++ post)⟩⟩,
         { s with carts := (replaceFirst u
            ⟨u, pre ++ post, lineSum catalogue (pre ++ post)⟩ s.carts) }) := by
  have hidx := findIdx?_load_some pre post i p hpre
  rw [← hsplit] at hidx
  rw [putCart_found hi rfl hc hidx, hsplit, updateItems_remove pre post i p q hq,
    recomputeAndSave_noFaults]
  simp [saveCart]

theorem getCart_noFaults_some (catalogue : List ItemDoc) (s : Store) (u : UserId) (c : Cart)
    (hc : findOne s.carts u = some c) :
    getCart noFaults catalogue s u
      = (⟨200, .populated ⟨c.userId, populate catalogue c.items, c.total⟩⟩, s) := by
  simp [getCart, noFaults, hc]

theorem getCart_noFaults_none (catalogue : List ItemDoc) (s : Store) (u : UserId)
    (hc : findOne s.carts u = none) :
    getCart noFaults catalogue s u = (⟨200, .emptyCart⟩, s) := by
  simp [getCart, noFaults, hc]

theorem findOne_deleteOne (carts : List Cart) (u : UserId)
    (h : (carts.map (fun c => c.userId)).Nodup) : findOne (deleteOne carts u) u = none := by
  induction carts with
  | nil => rfl
  | cons x xs ih =>
    simp only [List.map_cons, List.nodup_cons] at h
    by_cases hx : x.userId = u
    · have hnot : ∀ c ∈ xs, ¬ c.userId = u := by
        intro c hcm hcu
        exact h.1 (List.mem_map.mpr ⟨c, hcm, by rw [hcu, hx]⟩)
      simp only [deleteOne, findOne, List.eraseP_cons, hx, beq_self_eq_true, cond_true]
      rw [List.find?_eq_none]
      intro c hcm
      simpa using hnot c hcm
    · have hx' : (x.userId == u) = false := by simp [hx]
      have hrec := ih h.2
      simp only [deleteOne, findOne, List.eraseP_cons, hx', cond_false, List.find?_cons] at hrec ⊢
      exact hrec

/-! ### What a request can leave in the cart collection -/

theorem getCart_store (f : Faults) (catalogue : List ItemDoc) (s : Store) (u : UserId) :
    (getCart f catalogue s u).2 = s := by
  unfold getCart
  split
  · rfl
  · split
    · rfl
    · split <;> rfl

theorem load_injective {cs cs' : List CartItem} (h : load cs = load cs') : cs = cs' := by
  have h1 := castItems_load cs
  rw [h, castItems_load] at h1
  exact (Option.some.inj h1).symm

/-- The store after `POST /cart`: untouched, or the saved cart written over the
user's cart (appended when the user had none). -/
theorem postCart_shape (f : Faults) (catalogue : List ItemDoc) (s : Store) (u : UserId)
    (body : CartBody) :
    (postCart f catalogue s u body).2 = s ∨
    ∃ cs old isNew,
      ((isNew = true ∧ findOne s.carts u = none ∧ old = []) ∨
        (isNew = false ∧ ∃ k, findOne s.carts u = some k ∧ k.items = old)) ∧
      JNum.leZero body.quantity = false ∧
      load cs = addToItems (load old) (body.itemId.getD "") body.quantity ∧
      (postCart f catalogue s u body).2
        = { s with carts := saveCart s.carts isNew ⟨u, cs, lineSum catalogue cs⟩ } := by
  unfold postCart
  split
  · exact Or.inl rfl
  · next hguard =>
    have hz : JNum.leZero body.quantity = false := by
      simp only [Bool.or_eq_true, not_or, Bool.not_eq_true] at hguard
      exact hguard.2
    split
    · exact Or.inl rfl
    · simp only []
      split
      · next cart hc =>
        rcases recomputeAndSave_cases f catalogue s u false
          (addToItems (load cart.items) (body.itemId.getD "") body.quantity)
          "Failed to update cart" with ⟨cs, hcs, _, _, heq⟩ | ⟨heq, _⟩
        · rw [heq]
          exact Or.inr ⟨cs, cart.items, false, Or.inr ⟨rfl, cart, hc, rfl⟩, hz, hcs.symm, rfl⟩
        · rw [heq]; exact Or.inl rfl
      · next hc =>
        rcases recomputeAndSave_cases f catalogue s u true
          (addToItems [] (body.itemId.getD "") body.quantity)
          "Failed to update cart" with ⟨cs, hcs, _, _, heq⟩ | ⟨heq, _⟩
        · rw [heq]
          exact Or.inr ⟨cs, [], true, Or.inl ⟨rfl, hc, rfl⟩, hz, hcs.symm, rfl⟩
        · rw [heq]; exact Or.inl rfl

/-- The store after `PUT /cart`: untouched, or the saved cart written over the
user's cart. -/
theorem putCart_shape (f : Faults) (catalogue : List ItemDoc) (s : Store) (u : UserId)
    (body : CartBody) :
    (putCart f catalogue s u body).2 = s ∨
    ∃ cs idx k, findOne s.carts u = some k ∧
      load cs = updateItems (load k.items) idx body.quantity ∧
      (putCart f catalogue s u body).2
        = { s with carts := saveCart s.carts false ⟨u, cs, lineSum catalogue cs⟩ } := by
  unfold putCart
  split
  · exact Or.inl rfl
  · split
    · exact Or.inl rfl
    · simp only []
      split
      · exact Or.inl rfl
      · next cart hc =>
        split
        · exact Or.inl rfl
        · next idx hidx =>
          rcases recomputeAndSave_cases f catalogue s u false
            (updateItems (load cart.items) idx body.quantity)
            "Failed to modify cart" with ⟨cs, hcs, _, _, heq⟩ | ⟨heq, _⟩
          · rw [heq]
            exact Or.inr ⟨cs, idx, cart, hc, hcs.symm, rfl⟩
          · rw [heq]; exact Or.inl rfl

theorem map_userId_replaceFirst (carts : List Cart) (u : UserId) (c' : Cart)
    (hu : c'.userId = u) :
    (replaceFirst u c' carts).map (fun c => c.userId) = carts.map (fun c => c.userId) := by
  induction carts with
  | nil => rfl
  | cons x xs ih =>
    by_cases hx : x.userId = u
    · simp [replaceFirst, hx, hu]
    · simp [replaceFirst, hx, ih]

theorem nodup_userIds_saveCart (carts : List Cart) (u : UserId) (isNew : Bool) (c' : Cart)
    (hu : c'.userId = u) (hnew : isNew = true → findOne carts u = none)
    (h : (carts.map (fun c => c.userId)).Nodup) :
    ((saveCart carts isNew c').map (fun c => c.userId)).Nodup := by
  unfold saveCart
  split
  · next hn =>
    have hnone := hnew hn
    rw [List.map_append, List.nodup_append]
    refine ⟨h, by simp, ?_⟩
    intro a ha hb
    simp only [List.map_cons, List.map_nil, List.mem_singleton] at hb
    rw [hb, hu] at ha
    obtain ⟨c, hc, hcu⟩ := List.mem_map.mp ha
    unfold findOne at hnone
    rw [List.find?_eq_none] at hnone
    have := hnone c hc
    simp [hcu] at this
  · rw [hu, map_userId_replaceFirst carts u c' hu]
    exact h

theorem nodup_userIds_deleteOne (carts : List Cart) (u : UserId)
    (h : (carts.map (fun c => c.userId)).Nodup) :
    ((deleteOne carts u).map (fun c => c.userId)).Nodup :=
  List.Nodup.sublist (List.Sublist.map _ (List.eraseP_sublist _)) h

theorem handle_oneCartPerUser (f : Faults) (catalogue : List ItemDoc) (s : Store) (u : UserId)
    (req : Request) (h : OneCartPerUser s) :
    OneCartPerUser (handle f catalogue s u req).2 := by
  unfold OneCartPerUser at h ⊢
  cases req with
  | get => simp only [handle]; rw [getCart_store]; exact h
  | addItem body =>
    simp only [handle]
    rcases postCart_shape f catalogue s u body with heq | ⟨cs, old, isNew, hcase, _, _, heq⟩
    · rw [heq]; exact h
    · rw [heq]
      apply nodup_userIds_saveCart s.carts u isNew _ rfl _ h
      intro hn
      rcases hcase with ⟨_, hnone, _⟩ | ⟨hf, _⟩
      · exact hnone
      · rw [hn] at hf; exact absurd hf (by decide)
  | updateItem body =>
    simp only [handle]
    rcases putCart_shape f catalogue s u body with heq | ⟨cs, idx, k, _, _, heq⟩
    · rw [heq]; exact h
    · rw [heq]
      exact nodup_userIds_saveCart s.carts u false _ rfl (fun hn => absurd hn (by decide)) h
  | clearCart =>
    simp only [handle, deleteCart]
    split
    · exact h
    · exact nodup_userIds_deleteOne s.carts u h
  | checkout =>
    simp only [handle, checkout]
    split
    · exact h
    · split
      · exact h
      · split
        · exact h
        · split
          · exact h
          · split
            · exact h
            · exact nodup_userIds_deleteOne s.carts u h

/-- Serving requests one after the other from a store without carts never
leaves a user with two cart documents. -/
theorem run_oneCartPerUser (s : Store) (calls : List Call) (h : OneCartPerUser s) :
    OneCartPerUser (run s calls) := by
  induction calls generalizing s with
  | nil => exact h
  | cons call rest ih =>
    exact ih _ (handle_oneCartPerUser call.faults call.catalogue s call.user call.request h)

/-! ### Faults that a request does not meet -/

theorem recomputeAndSave_faultFree (f : Faults) (catalogue : List ItemDoc) (s : Store)
    (u : UserId) (isNew : Bool) (items : List MemItem) (failure : String)
    (h1 : f.itemFind = false) (h2 : f.cartSave = false) :
    recomputeAndSave f catalogue s u isNew items failure
      = recomputeAndSave noFaults catalogue s u isNew items failure := by
  simp [recomputeAndSave, h1, h2, noFaults]

theorem postCart_faultFree (f : Faults) (catalogue : List ItemDoc) (s : Store) (u : UserId)
    (body : CartBody) (h0 : f.cartFind = false) (h1 : f.itemFind = false)
    (h2 : f.cartSave = false) :
    postCart f catalogue s u body = postCart noFaults catalogue s u body := by
  unfold postCart
  simp only [h0, recomputeAndSave_faultFree f catalogue s u _ _ _ h1 h2]
  rfl

theorem putCart_faultFree (f : Faults) (catalogue : List ItemDoc) (s : Store) (u : UserId)
    (body : CartBody) (h0 : f.cartFind = false) (h1 : f.itemFind = false)
    (h2 : f.cartSave = false) :
    putCart f catalogue s u body = putCart noFaults catalogue s u body := by
  unfold putCart
  simp only [h0, recomputeAndSave_faultFree f catalogue s u _ _ _ h1 h2]
  rfl

theorem recomputeAndSave_all_or_nothing (f : Faults) (catalogue : List ItemDoc) (s : Store)
    (u : UserId) (isNew : Bool) (items : List MemItem) (failure : String) :
    ((recomputeAndSave f catalogue s u isNew items failure).1.status = 200 ∧
      f.itemFind = false ∧ f.cartSave = false) ∨
    (400 ≤ (recomputeAndSave f catalogue s u isNew items failure).1.status ∧
      (recomputeAndSave f catalogue s u isNew items failure).2 = s) := by
  rcases recomputeAndSave_cases f catalogue s u isNew items failure with
    ⟨cs, _, h1, h2, heq⟩ | ⟨heq, _⟩
  · left; rw [heq]; exact ⟨rfl, h1, h2⟩
  · right; rw [heq]; exact ⟨by simp, rfl⟩

/-- An update without a quantity leaves a non-number in the document, which
`save()` rejects: the answer is 500 and the store is unchanged. -/
theorem putCart_undefined_quantity (f : Faults) (catalogue : List ItemDoc) (s : Store)
    (u : UserId) (i : String) (cart : Cart) (hi : i ≠ "") (hf : f.cartFind = false)
    (hc : findOne s.carts u = some cart) (hmem : i ∈ cart.items.map (fun e => e.itemId)) :
    putCart f catalogue s u ⟨some i, none⟩ = (⟨500, .message "Failed to modify cart"⟩, s) := by
  obtain ⟨pre, p, post, hsplit, hpre⟩ := split_at_first cart.items i hmem
  have hidx := findIdx?_load_some pre post i p hpre
  rw [← hsplit] at hidx
  rw [putCart_found hi hf hc hidx, hsplit, updateItems_undefined]
  rcases recomputeAndSave_cases f catalogue s u false (load pre ++ ⟨i, none⟩ :: load post)
    "Failed to modify cart" with ⟨cs, hcs, _, _, _⟩ | ⟨heq, _⟩
  · exact absurd hcs (not_load_of_none _ _ i cs)
  · exact heq

/-! ## The claims -/

/-- C4. With a store that does not fail, `PUT /cart` for an item id `i` that has
an entry in the user's cart answers 200 with the cart it persisted: for `q > 0`
the entry of `i` carries exactly `q` whatever it carried before, for `q <= 0`
the entry is gone, and all other entries stay as they were, in place. The cart
document stays in the store; `GET /cart` afterwards returns it, also when it
has no entry left (items `[]` on the stored document, not the empty-cart
value). -/
theorem updateItem_sets_or_removes (catalogue : List ItemDoc) (s : Store) (u : UserId)
    (i : String) (q p : ℚ) (cart : Cart) (pre post : List CartItem) (hi : i ≠ "")
    (hc : findOne s.carts u = some cart) (hsplit : cart.items = pre ++ ⟨i, p⟩ :: post)
    (hpre : i ∉ itemIds pre) :
    ∃ c', (putCart noFaults catalogue s u ⟨some i, some q⟩).1 = ⟨200, .cart c'⟩ ∧
      findOne (putCart noFaults catalogue s u ⟨some i, some q⟩).2.carts u = some c' ∧
      (0 < q → c'.items = pre ++ ⟨i, q⟩ :: post) ∧
      (q ≤ 0 → c'.items = pre ++ post) ∧
      getCart noFaults catalogue (putCart noFaults catalogue s u ⟨some i, some q⟩).2 u
        = (⟨200, .populated ⟨u, populate catalogue c'.items, c'.total⟩⟩,
           (putCart noFaults catalogue s u ⟨some i, some q⟩).2) ∧
      (q ≤ 0 → pre ++ post = [] →
        (getCart noFaults catalogue (putCart noFaults catalogue s u ⟨some i, some q⟩).2 u).1
          = ⟨200, .populated ⟨u, [], 0⟩⟩) := by
  by_cases hq : 0 < q
  · have hput := putCart_noFaults_set catalogue s u i p q cart pre post hi hq hc hsplit hpre
    have hfind := findOne_replaceFirst s.carts u cart
      ⟨u, pre ++ ⟨i, q⟩ :: post, lineSum catalogue (pre ++ ⟨i, q⟩ :: post)⟩ hc rfl
    rw [hput]
    refine ⟨_, rfl, hfind, fun _ => rfl, fun h => absurd hq (not_lt.mpr h), ?_, ?_⟩
    · exact getCart_noFaults_some catalogue ⟨_, s.orders⟩ u _ hfind
    · intro h; exact absurd hq (not_lt.mpr h)
  · have hq' : q ≤ 0 := not_lt.mp hq
    have hput := putCart_noFaults_remove catalogue s u i p q cart pre post hi hq' hc hsplit hpre
    have hfind := findOne_replaceFirst s.carts u cart
      ⟨u, pre ++ post, lineSum catalogue (pre ++ post)⟩ hc rfl
    rw [hput]
    refine ⟨_, rfl, hfind, fun h => absurd h hq, fun _ => rfl, ?_, ?_⟩
    · exact getCart_noFaults_some catalogue ⟨_, s.orders⟩ u _ hfind
    · intro _ hnil
      rw [getCart_noFaults_some catalogue ⟨_, s.orders⟩ u _ hfind]
      simp [hnil, populate, lineSum]

/-- Witness of C4: setting the only entry of a cart to quantity 0 leaves a
stored cart without entries. -/
theorem updateItem_sets_or_removes_witness :
    ∃ c', (putCart noFaults [] ⟨[⟨alice, [⟨itemA, 2⟩], 0⟩], []⟩ alice ⟨some itemA, some 0⟩).1
        = ⟨200, .cart c'⟩ ∧
      findOne (putCart noFaults [] ⟨[⟨alice, [⟨itemA, 2⟩], 0⟩], []⟩ alice ⟨some itemA, some 0⟩).2.carts alice
        = some c' ∧
      ((0 : ℚ) < 0 → c'.items = [] ++ ⟨itemA, 0⟩ :: []) ∧
      ((0 : ℚ) ≤ 0 → c'.items = [] ++ []) ∧
      getCart noFaults []
          (putCart noFaults [] ⟨[⟨alice, [⟨itemA, 2⟩], 0⟩], []⟩ alice ⟨some itemA, some 0⟩).2 alice
        = (⟨200, .populated ⟨alice, populate [] c'.items, c'.total⟩⟩,
           (putCart noFaults [] ⟨[⟨alice, [⟨itemA, 2⟩], 0⟩], []⟩ alice ⟨some itemA, some 0⟩).2) ∧
      ((0 : ℚ) ≤ 0 → ([] : List CartItem) ++ [] = [] →
        (getCart noFaults []
          (putCart noFaults [] ⟨[⟨alice, [⟨itemA, 2⟩], 0⟩], []⟩ alice ⟨some itemA, some 0⟩).2 alice).1
          = ⟨200, .populated ⟨alice, [], 0⟩⟩) :=
  updateItem_sets_or_removes [] ⟨[⟨alice, [⟨itemA, 2⟩], 0⟩], []⟩ alice itemA 0 2 ⟨alice, [⟨itemA, 2⟩], 0⟩
    [] [] (by decide) (by simp [findOne]) rfl (by simp [itemIds])

/-- C5. With a store that does not fail and at most one cart per user, checkout
of a user whose cart has at least one entry answers 201 with a new order that
carries the user, the cart's items and total, and status "Processing"; the
order collection is the old one followed by exactly that order; afterwards
the user has no cart and `GET /cart` returns the empty-cart value. -/
theorem checkout_creates_order (catalogue : List ItemDoc) (s : Store) (u : UserId) (cart : Cart)
    (hone : OneCartPerUser s) (hc : findOne s.carts u = some cart) (hitems : cart.items ≠ []) :
    (checkout noFaults s u).1
        = ⟨201, .orderPlaced ⟨u, cart.items, cart.total, "Processing"⟩⟩ ∧
      (checkout noFaults s u).2.orders
        = s.orders ++ [⟨u, cart.items, cart.total, "Processing"⟩] ∧
      findOne (checkout noFaults s u).2.carts u = none ∧
      getCart noFaults catalogue (checkout noFaults s u).2 u
        = (⟨200, .emptyCart⟩, (checkout noFaults s u).2) := by
  have hlen : ¬ cart.items.length = 0 := by
    intro h; exact hitems (List.length_eq_zero.mp h)
  have hco : checkout noFaults s u
      = (⟨201, .orderPlaced ⟨u, cart.items, cart.total, "Processing"⟩⟩,
         ⟨deleteOne s.carts u, s.orders ++ [⟨u, cart.items, cart.total, "Processing"⟩]⟩) := by
    simp [checkout, noFaults, hc, hlen]
  have hnone : findOne (deleteOne s.carts u) u = none := findOne_deleteOne s.carts u hone
  rw [hco]
  exact ⟨rfl, rfl, hnone, getCart_noFaults_none catalogue _ u hnone⟩

/-- Witness of C5: checkout of a cart holding one entry. -/
theorem checkout_creates_order_witness :
    (checkout noFaults ⟨[⟨alice, [⟨itemB, 1⟩], 5⟩], []⟩ alice).1
        = ⟨201, .orderPlaced ⟨alice, [⟨itemB, 1⟩], 5, "Processing"⟩⟩ ∧
      (checkout noFaults ⟨[⟨alice, [⟨itemB, 1⟩], 5⟩], []⟩ alice).2.orders
        = [] ++ [⟨alice, [⟨itemB, 1⟩], 5, "Processing"⟩] ∧
      findOne (checkout noFaults ⟨[⟨alice, [⟨itemB, 1⟩], 5⟩], []⟩ alice).2.carts alice = none ∧
      getCart noFaults [] (checkout noFaults ⟨[⟨alice, [⟨itemB, 1⟩], 5⟩], []⟩ alice).2 alice
        = (⟨200, .emptyCart⟩, (checkout noFaults ⟨[⟨alice, [⟨itemB, 1⟩], 5⟩], []⟩ alice).2) :=
  checkout_creates_order [] ⟨[⟨alice, [⟨itemB, 1⟩], 5⟩], []⟩ alice ⟨alice, [⟨itemB, 1⟩], 5⟩
    (by simp [OneCartPerUser]) (by simp [findOne]) (by simp)

/-- C6. When the cart lookup does not fail, `POST /checkout` answers 400 exactly
when the user has no cart or the user's cart has zero entries; the answer is
then 400 "Cart is empty", no order is created and the store is unchanged. -/
theorem checkout_empty_iff (f : Faults) (s : Store) (u : UserId) (hf : f.cartFind = false) :
    ((checkout f s u).1.status = 400 ↔
      (findOne s.carts u = none ∨ ∃ c, findOne s.carts u = some c ∧ c.items = [])) ∧
    ((checkout f s u).1.status = 400 →
      checkout f s u = (⟨400, .message "Cart is empty"⟩, s)) := by
  cases hc : findOne s.carts u with
  | none => simp [checkout, hf, hc]
  | some cart =>
    by_cases hnil : cart.items = []
    · simp [checkout, hf, hc, hnil]
    · have hlen : ¬ cart.items.length = 0 := fun h => hnil (List.length_eq_zero.mp h)
      by_cases h1 : f.orderCreate = true
      · simp [checkout, hf, hc, hnil, h1]
      · by_cases h2 : f.cartDelete = true
        · simp [checkout, hf, hc, hnil, h1, h2]
        · simp [checkout, hf, hc, hnil, h1, h2]

/-- Witness of C6: checkout of a user without a cart. -/
theorem checkout_empty_iff_witness :
    ((checkout noFaults ⟨[], []⟩ alice).1.status = 400 ↔
      (findOne (Store.mk [] []).carts alice = none ∨
        ∃ c, findOne (Store.mk [] []).carts alice = some c ∧ c.items = [])) ∧
    ((checkout noFaults ⟨[], []⟩ alice).1.status = 400 →
      checkout noFaults ⟨[], []⟩ alice = (⟨400, .message "Cart is empty"⟩, ⟨[], []⟩)) :=
  checkout_empty_iff noFaults ⟨[], []⟩ alice rfl

/-- C7. `PUT /cart` answers 400 "Missing itemId" when `itemId` is missing or
empty; when the cart lookup does not fail and `itemId` is present it answers
404 "Cart not found" if the user has no cart and 404 "Item not in cart" if the
cart has no entry for the item; in these three cases the store is unchanged.
When `itemId` is present and the cart has an entry for it, the answer is
neither 400 nor 404. -/
theorem updateItem_errors (f : Faults) (catalogue : List ItemDoc) (s : Store) (u : UserId)
    (q : JNum) :
    (putCart f catalogue s u ⟨none, q⟩ = (⟨400, .message "Missing itemId"⟩, s)) ∧
    (putCart f catalogue s u ⟨some "", q⟩ = (⟨400, .message "Missing itemId"⟩, s)) ∧
    (∀ i : String, i ≠ "" → f.cartFind = false → findOne s.carts u = none →
      putCart f catalogue s u ⟨some i, q⟩ = (⟨404, .message "Cart not found"⟩, s)) ∧
    (∀ (i : String) (cart : Cart), i ≠ "" → f.cartFind = false →
      findOne s.carts u = some cart → i ∉ itemIds cart.items →
      putCart f catalogue s u ⟨some i, q⟩ = (⟨404, .message "Item not in cart"⟩, s)) ∧
    (∀ (i : String) (cart : Cart), i ≠ "" → findOne s.carts u = some cart →
      i ∈ itemIds cart.items →
      (putCart f catalogue s u ⟨some i, q⟩).1.status ≠ 400 ∧
      (putCart f catalogue s u ⟨some i, q⟩).1.status ≠ 404) := by
  refine ⟨by simp [putCart, falsy], by simp [putCart, falsy], ?_, ?_, ?_⟩
  · intro i hi hf hc
    simp [putCart, falsy, hi, hf, hc]
  · intro i cart hi hf hc hmem
    have hidx := findIdx?_load_none cart.items i hmem
    simp [putCart, falsy, hi, hf, hc, hidx]
  · intro i cart hi hc hmem
    by_cases hf : f.cartFind = true
    · simp [putCart, falsy, hi, hf]
    · obtain ⟨pre, p, post, hsplit, hpre⟩ := split_at_first cart.items i hmem
      have hidx := findIdx?_load_some pre post i p hpre
      rw [← hsplit] at hidx
      rw [putCart_found hi (by simpa using hf) hc hidx]
      rcases recomputeAndSave_status f catalogue s u false
        (updateItems (load cart.items) pre.length q) "Failed to modify cart" with h | h
      · rw [h]; decide
      · rw [h]; simp

/-- Witness of C7: updating an item that the cart does not hold. -/
theorem updateItem_errors_witness :
    putCart noFaults [] ⟨[⟨alice, [⟨itemA, 2⟩], 0⟩], []⟩ alice ⟨some itemB, some 1⟩
      = (⟨404, .message "Item not in cart"⟩, ⟨[⟨alice, [⟨itemA, 2⟩], 0⟩], []⟩) :=
  (updateItem_errors noFaults [] ⟨[⟨alice, [⟨itemA, 2⟩], 0⟩], []⟩ alice (some 1)).2.2.2.1 itemB
    ⟨alice, [⟨itemA, 2⟩], 0⟩ (by decide) rfl (by simp [findOne])
    (by simp [itemIds, itemB_ne_itemA])

/-- Counterexample to C9 as stated: when the order is created and the cart
deletion then fails, checkout answers 500 "Checkout failed" although the order
has been persisted, so the store differs from the one before the request. -/
theorem checkout_error_with_order_persisted :
    checkout ⟨false, false, false, false, true⟩ ⟨[⟨alice, [⟨itemA, 2⟩], 20⟩], []⟩ alice
      = (⟨500, .message "Checkout failed"⟩,
         ⟨[⟨alice, [⟨itemA, 2⟩], 20⟩], [⟨alice, [⟨itemA, 2⟩], 20, "Processing"⟩]⟩) ∧
    (checkout ⟨false, false, false, false, true⟩ ⟨[⟨alice, [⟨itemA, 2⟩], 20⟩], []⟩ alice).2
      ≠ ⟨[⟨alice, [⟨itemA, 2⟩], 20⟩], []⟩ := by
  have h : checkout ⟨false, false, false, false, true⟩ ⟨[⟨alice, [⟨itemA, 2⟩], 20⟩], []⟩ alice
      = (⟨500, .message "Checkout failed"⟩,
         ⟨[⟨alice, [⟨itemA, 2⟩], 20⟩], [⟨alice, [⟨itemA, 2⟩], 20, "Processing"⟩]⟩) := by
    simp [checkout, findOne]
  refine ⟨h, ?_⟩
  rw [h]
  simp

/-- C9 (amended). With any store call failing or not: `POST /cart`, `PUT /cart`
and `DELETE /cart` either answer 200 with exactly the effect of the request on
a store that does not fail, or answer an error (status at least 400) and leave
the store as it was. `POST /checkout` either answers 201 with exactly the
effect of a checkout on a store that does not fail, or answers an error and
leaves the store as it was, or, when only the cart deletion fails, answers
500 with the carts as they were and the new order appended to the orders. -/
theorem all_or_nothing_except_checkout (f : Faults) (catalogue : List ItemDoc) (s : Store)
    (u : UserId) (body : CartBody) :
    (((postCart f catalogue s u body).1.status = 200 ∧
        postCart f catalogue s u body = postCart noFaults catalogue s u body) ∨
      (400 ≤ (postCart f catalogue s u body).1.status ∧
        (postCart f catalogue s u body).2 = s)) ∧
    (((putCart f catalogue s u body).1.status = 200 ∧
        putCart f catalogue s u body = putCart noFaults catalogue s u body) ∨
      (400 ≤ (putCart f catalogue s u body).1.status ∧
        (putCart f catalogue s u body).2 = s)) ∧
    (((deleteCart f s u).1.status = 200 ∧ deleteCart f s u = deleteCart noFaults s u) ∨
      (400 ≤ (deleteCart f s u).1.status ∧ (deleteCart f s u).2 = s)) ∧
    (((checkout f s u).1.status = 201 ∧ checkout f s u = checkout noFaults s u) ∨
      (400 ≤ (checkout f s u).1.status ∧ (checkout f s u).2 = s) ∨
      ((checkout f s u).1.status = 500 ∧ f.cartDelete = true ∧
        ∃ cart, findOne s.carts u = some cart ∧
          (checkout f s u).2
            = ⟨s.carts, s.orders ++ [⟨u, cart.items, cart.total, "Processing"⟩]⟩)) := by
  refine ⟨?_, ?_, ?_, ?_⟩
  · by_cases h0 : f.cartFind = true
    · right
      unfold postCart
      split
      · exact ⟨by simp, rfl⟩
      · simp [h0]
    · have h0' : f.cartFind = false := by simpa using h0
      by_cases hg : (falsy body.itemId || JNum.leZero body.quantity) = true
      · right; simp [postCart, hg]
      · have hpc : ∃ isNew items, postCart f catalogue s u body
            = recomputeAndSave f catalogue s u isNew items "Failed to update cart" := by
          unfold postCart
          simp only [hg, h0', Bool.false_eq_true, if_false]
          split
          · exact ⟨_, _, rfl⟩
          · exact ⟨_, _, rfl⟩
        obtain ⟨isNew, items, hpc⟩ := hpc
        rcases recomputeAndSave_all_or_nothing f catalogue s u isNew items
          "Failed to update cart" with ⟨hst, h1, h2⟩ | ⟨hst, hs⟩
        · left
          exact ⟨by rw [hpc]; exact hst, postCart_faultFree f catalogue s u body h0' h1 h2⟩
        · right
          rw [hpc]; exact ⟨hst, hs⟩
  · by_cases h0 : f.cartFind = true
    · right
      unfold putCart
      split
      · exact ⟨by simp, rfl⟩
      · simp [h0]
    · have h0' : f.cartFind = false := by simpa using h0
      by_cases hg : falsy body.itemId = true
      · right; simp [putCart, hg]
      · have hpc : (400 ≤ (putCart f catalogue s u body).1.status ∧
              (putCart f catalogue s u body).2 = s) ∨
            ∃ isNew items, putCart f catalogue s u body
              = recomputeAndSave f catalogue s u isNew items "Failed to modify cart" := by
          unfold putCart
          simp only [hg, h0', Bool.false_eq_true, if_false]
          split
          · exact Or.inl ⟨by simp, rfl⟩
          · split
            · exact Or.inl ⟨by simp, rfl⟩
            · exact Or.inr ⟨_, _, rfl⟩
        rcases hpc with hpc | ⟨isNew, items, hpc⟩
        · exact Or.inr hpc
        · rcases recomputeAndSave_all_or_nothing f catalogue s u isNew items
            "Failed to modify cart" with ⟨hst, h1, h2⟩ | ⟨hst, hs⟩
          · left
            exact ⟨by rw [hpc]; exact hst, putCart_faultFree f catalogue s u body h0' h1 h2⟩
          · right
            rw [hpc]; exact ⟨hst, hs⟩
  · by_cases h0 : f.cartDelete = true
    · right; simp [deleteCart, h0]
    · left; simp [deleteCart, h0, noFaults]
  · by_cases h0 : f.cartFind = true
    · right; left; simp [checkout, h0]
    · cases hc : findOne s.carts u with
      | none => right; left; simp [checkout, h0, hc]
      | some cart =>
        by_cases hnil : cart.items = []
        · right; left; simp [checkout, h0, hc, hnil]
        · by_cases h1 : f.orderCreate = true
          · right; left; simp [checkout, h0, hc, hnil, h1]
          · by_cases h2 : f.cartDelete = true
            · right; right
              refine ⟨by simp [checkout, h0, hc, hnil, h1, h2], h2, cart, rfl, ?_⟩
              simp [checkout, h0, hc, hnil, h1, h2]
            · left; simp [checkout, h0, hc, hnil, h1, h2, noFaults]

end BSOD
